import Mathlib

/-!
Shallow embedding of `networkfile.py`: the FracNet convolutional network
for regressing IFS parameters from single-channel images.

Layers (`nn.Conv2d`, `nn.BatchNorm2d`, `nn.BatchNorm1d`, `nn.LeakyReLU`,
`nn.Dropout`, `nn.Linear`) are embedded as a flat inductive type; an
`nn.Sequential` is a `List Layer`.  Two semantics are given:

* an abstract value semantics `Layer.run`, parametrised by an
  interpretation `PrimSem V` of the primitive layers over an arbitrary
  value type `V` (the claims about the order of operations hold for every
  interpretation, so nothing depends on floating-point details);
* a shape semantics `Layer.shapeOut : Layer → TShape → Option TShape`
  that returns `none` exactly where PyTorch raises on a shape check.
  The legality checks PyTorch performs at layer construction
  (kernel size and stride positive) are folded into the shape semantics.
-/

/-- A tensor shape: `s4 b c h w` is a 4-D tensor (batch, channels,
height, width); `s2 b n` is a 2-D tensor (batch, features). -/
inductive TShape where
  | s4 (b c h w : Nat)
  | s2 (b n : Nat)
deriving DecidableEq

/-- The batch dimension (`size(0)`) of a shape. -/
def TShape.batch : TShape → Nat
  | .s4 b _ _ _ => b
  | .s2 b _ => b

/-- A primitive PyTorch layer, with its construction parameters. -/
inductive Layer where
  | conv2d (in_channels out_channels kernel_size stride padding : Nat)
  | batchNorm2d (num_features : Nat)
  | batchNorm1d (num_features : Nat)
  | leakyReLU
  | dropout (p : ℚ)
  | linear (in_features out_features : Nat)
deriving DecidableEq

/-- An interpretation of the primitive layers over a value type `V`:
each primitive becomes a function on `V`, `add` interprets the in-place
tensor addition `out += x`, and `reshape` interprets
`out.reshape(out.size(0), -1)`. -/
structure PrimSem (V : Type) where
  conv2d : Nat → Nat → Nat → Nat → Nat → V → V
  batchNorm2d : Nat → V → V
  batchNorm1d : Nat → V → V
  leakyReLU : V → V
  dropout : ℚ → V → V
  linear : Nat → Nat → V → V
  add : V → V → V
  reshape : V → V

/-- Value semantics of one primitive layer. -/
def Layer.run {V : Type} (S : PrimSem V) : Layer → V → V
  | .conv2d a b k s p, x => S.conv2d a b k s p x
  | .batchNorm2d f, x => S.batchNorm2d f x
  | .batchNorm1d f, x => S.batchNorm1d f x
  | .leakyReLU, x => S.leakyReLU x
  | .dropout p, x => S.dropout p x
  | .linear a b, x => S.linear a b x

/-- Value semantics of an `nn.Sequential`: apply the layers in order. -/
def runLayers {V : Type} (S : PrimSem V) : List Layer → V → V
  | [], x => x
  | l :: ls, x => runLayers S ls (l.run S x)

/-- Shape semantics of `nn.Conv2d` (stride `s`, zero padding `p`):
requires a 4-D input whose channel count matches, a positive kernel and
stride, and a padded spatial extent at least the kernel size; the output
spatial size is `(n + 2p - k) / s + 1` (floor division). -/
def conv2dShape (inC outC k s p : Nat) : TShape → Option TShape
  | .s4 b c h w =>
      if c = inC ∧ 1 ≤ k ∧ 1 ≤ s ∧ k ≤ h + 2 * p ∧ k ≤ w + 2 * p then
        some (.s4 b outC ((h + 2 * p - k) / s + 1) ((w + 2 * p - k) / s + 1))
      else none
  | .s2 _ _ => none

/-- Shape semantics of `nn.BatchNorm2d` in training mode: 4-D input with
matching channel count and more than one value per channel. -/
def batchNorm2dShape (f : Nat) : TShape → Option TShape
  | .s4 b c h w => if c = f ∧ 2 ≤ b * h * w then some (.s4 b c h w) else none
  | .s2 _ _ => none

/-- Shape semantics of `nn.BatchNorm1d` in training mode: 2-D input with
matching feature count and more than one value per feature. -/
def batchNorm1dShape (f : Nat) : TShape → Option TShape
  | .s2 b n => if n = f ∧ 2 ≤ b then some (.s2 b n) else none
  | .s4 _ _ _ _ => none

/-- Shape semantics of `nn.Linear`: the last dimension must equal
`in_features` and is mapped to `out_features`. -/
def linearShape (inF outF : Nat) : TShape → Option TShape
  | .s2 b n => if n = inF then some (.s2 b outF) else none
  | .s4 b c h w => if w = inF then some (.s4 b c h outF) else none

/-- Shape semantics of the in-place addition `out += x`: each dimension
of `x` must equal the corresponding dimension of `out` or be `1`
(PyTorch broadcasting); the result keeps the shape of `out`. -/
def addInto : TShape → TShape → Option TShape
  | .s4 b c h w, .s4 b2 c2 h2 w2 =>
      if (b2 = b ∨ b2 = 1) ∧ (c2 = c ∨ c2 = 1) ∧ (h2 = h ∨ h2 = 1) ∧ (w2 = w ∨ w2 = 1) then
        some (.s4 b c h w)
      else none
  | .s2 b n, .s2 b2 n2 =>
      if (b2 = b ∨ b2 = 1) ∧ (n2 = n ∨ n2 = 1) then some (.s2 b n) else none
  | _, _ => none

/-- Shape semantics of one primitive layer (`none` = PyTorch raises). -/
def Layer.shapeOut : Layer → TShape → Option TShape
  | .conv2d a b k s p, t => conv2dShape a b k s p t
  | .batchNorm2d f, t => batchNorm2dShape f t
  | .batchNorm1d f, t => batchNorm1dShape f t
  | .leakyReLU, t => some t
  | .dropout _, t => some t
  | .linear a b, t => linearShape a b t

/-- Shape semantics of an `nn.Sequential` of primitive layers:
compose the layer shapes in order, propagating failure. -/
def layersShape : List Layer → TShape → Option TShape
  | [], t => some t
  | l :: ls, t => (l.shapeOut t).bind (layersShape ls)

/-- `convbr` from networkfile.py: `nn.Sequential` of `Conv2d`,
`BatchNorm2d`, `LeakyReLU`, with defaults `kernel_size = 3`,
`stride = 1`, `padding = 0`. -/
def convbr (in_channels out_channels : Nat) (kernel_size : Nat := 3)
    (stride : Nat := 1) (padding : Nat := 0) : List Layer :=
  [.conv2d in_channels out_channels kernel_size stride padding,
   .batchNorm2d out_channels,
   .leakyReLU]

/-- `fcbrd` from networkfile.py: `nn.Sequential` of `Dropout`, `Linear`,
`BatchNorm1d`, `LeakyReLU`, with default dropout probability `0`. -/
def fcbrd (in_channels out_channels : Nat) (dropout : ℚ := 0) : List Layer :=
  [.dropout dropout,
   .linear in_channels out_channels,
   .batchNorm1d out_channels,
   .leakyReLU]

/-- The `block` class: three `convbr` sub-layers. -/
structure Block where
  conv1 : List Layer
  conv2 : List Layer
  conv3 : List Layer
deriving DecidableEq

/-- `block.__init__(channels, reduced, ksize)`: a 1x1 convolution down to
`reduced` maps, a `ksize` convolution with padding `int(ksize/2)`, and a
1x1 convolution back to `channels` maps. -/
def block (channels reduced ksize : Nat) : Block :=
  { conv1 := convbr channels reduced 1
    conv2 := convbr reduced reduced ksize 1 (ksize / 2)
    conv3 := convbr reduced channels 1 }

/-- `block.forward`: `conv1`, `conv2`, `conv3` in order, then the
in-place residual addition `out += x`. -/
def Block.run {V : Type} (S : PrimSem V) (bl : Block) (x : V) : V :=
  S.add (runLayers S bl.conv3 (runLayers S bl.conv2 (runLayers S bl.conv1 x))) x

/-- Shape semantics of `block.forward`: the three convolutions in
order, then the in-place residual addition against the block input. -/
def Block.shapeOut (bl : Block) (t : TShape) : Option TShape :=
  (layersShape bl.conv1 t).bind fun t1 =>
    (layersShape bl.conv2 t1).bind fun t2 =>
      (layersShape bl.conv3 t2).bind fun t3 => addInto t3 t

/-- Value semantics of a chunk (`nn.Sequential` of blocks), in order. -/
def runChunk {V : Type} (S : PrimSem V) : List Block → V → V
  | [], x => x
  | bl :: bs, x => runChunk S bs (bl.run S x)

/-- Shape semantics of a chunk: the blocks in order, propagating
failure. -/
def chunkShape : List Block → TShape → Option TShape
  | [], t => some t
  | bl :: bs, t => (bl.shapeOut t).bind (chunkShape bs)

/-- `FracNet.make_chunk(channels, chunks, reduced, ksize)`: the loop
`for i in range(chunks): layers.append(block(channels, reduced, ksize))`
wrapped in `nn.Sequential`. -/
def make_chunk (channels chunks reduced ksize : Nat) : List Block :=
  (List.range chunks).map (fun _ => block channels reduced ksize)

/-- The `FracNet` module: bookkeeping attributes set by `__init__`, the
seven pooling convolutions, the seven residual chunks, and the two
fully-connected layers. -/
structure FracNet where
  Accuracies : List (List Int)
  losses : List ℚ
  total_epochs : Nat
  num_classes : Nat
  pool0 : List Layer
  chunk0 : List Block
  pool1 : List Layer
  chunk1 : List Block
  pool2 : List Layer
  chunk2 : List Block
  pool3 : List Layer
  chunk3 : List Block
  pool4 : List Layer
  chunk4 : List Block
  pool5 : List Layer
  chunk5 : List Block
  pool6 : List Layer
  chunk6 : List Block
  fc0 : List Layer
  fcout : Layer

/-- `FracNet.__init__(num_classes, dropout, chunks, ksize, psize)`.
The Python lists `chunks`, `ksize`, `psize` (documented to have size 7,
and indexed only at 0..6) are embedded as functions `Fin 7 → Nat`. -/
def FracNet.init (num_classes : Nat) (dropout : ℚ)
    (chunks ksize psize : Fin 7 → Nat) : FracNet :=
  let num_maps : Fin 7 → Nat := ![8, 16, 32, 64, 128, 256, 512]
  let reduce_maps : Fin 7 → Nat := ![8, 16, 16, 32, 32, 64, 128]
  { Accuracies := [[0], [0], [0], [0], [0]]
    losses := []
    total_epochs := 0
    num_classes := num_classes
    pool0 := convbr 1 (num_maps 0) (psize 0) 2 0
    chunk0 := make_chunk (num_maps 0) (chunks 0) (reduce_maps 0) (ksize 0)
    pool1 := convbr (num_maps 0) (num_maps 1) (psize 1) 2 0
    chunk1 := make_chunk (num_maps 1) (chunks 1) (reduce_maps 1) (ksize 1)
    pool2 := convbr (num_maps 1) (num_maps 2) (psize 2) 2 0
    chunk2 := make_chunk (num_maps 2) (chunks 2) (reduce_maps 2) (ksize 2)
    pool3 := convbr (num_maps 2) (num_maps 3) (psize 3) 2 0
    chunk3 := make_chunk (num_maps 3) (chunks 3) (reduce_maps 3) (ksize 3)
    pool4 := convbr (num_maps 3) (num_maps 4) (psize 4) 2 0
    chunk4 := make_chunk (num_maps 4) (chunks 4) (reduce_maps 4) (ksize 4)
    pool5 := convbr (num_maps 4) (num_maps 5) (psize 5) 2 0
    chunk5 := make_chunk (num_maps 5) (chunks 5) (reduce_maps 5) (ksize 5)
    pool6 := convbr (num_maps 5) (num_maps 6) (psize 6) 2 0
    chunk6 := make_chunk (num_maps 6) (chunks 6) (reduce_maps 6) (ksize 6)
    fc0 := fcbrd (num_maps 6 * 3 * 3) 1000 dropout
    fcout := .linear 1000 num_classes }

/-- `FracNet.forward`, embedded with explicit state passing: the method
reads `self` but never assigns to it, so the returned model is the input
model.  The output is the fixed pipeline pool0, chunk0, ..., pool6,
chunk6, reshape to `(batch, -1)`, fc0, fcout. -/
def FracNet.forward {V : Type} (S : PrimSem V) (m : FracNet) (x : V) :
    FracNet × V :=
  let out := runLayers S m.pool0 x
  let out := runChunk S m.chunk0 out
  let out := runLayers S m.pool1 out
  let out := runChunk S m.chunk1 out
  let out := runLayers S m.pool2 out
  let out := runChunk S m.chunk2 out
  let out := runLayers S m.pool3 out
  let out := runChunk S m.chunk3 out
  let out := runLayers S m.pool4 out
  let out := runChunk S m.chunk4 out
  let out := runLayers S m.pool5 out
  let out := runChunk S m.chunk5 out
  let out := runLayers S m.pool6 out
  let out := runChunk S m.chunk6 out
  let out := S.reshape out
  let out := runLayers S m.fc0 out
  let out := m.fcout.run S out
  (m, out)

/-- Shape semantics of `out.reshape(out.size(0), -1)`. -/
def reshapeShape : TShape → Option TShape
  | .s4 b c h w => some (.s2 b (c * h * w))
  | .s2 b n => some (.s2 b n)

/-- Shape semantics of `FracNet.forward`. -/
def FracNet.forwardShape (m : FracNet) (t : TShape) : Option TShape :=
  (layersShape m.pool0 t).bind (chunkShape m.chunk0)
    |>.bind (layersShape m.pool1) |>.bind (chunkShape m.chunk1)
    |>.bind (layersShape m.pool2) |>.bind (chunkShape m.chunk2)
    |>.bind (layersShape m.pool3) |>.bind (chunkShape m.chunk3)
    |>.bind (layersShape m.pool4) |>.bind (chunkShape m.chunk4)
    |>.bind (layersShape m.pool5) |>.bind (chunkShape m.chunk5)
    |>.bind (layersShape m.pool6) |>.bind (chunkShape m.chunk6)
    |>.bind reshapeShape |>.bind (layersShape m.fc0)
    |>.bind m.fcout.shapeOut

/-! ### Helper lemmas -/

lemma make_chunk_eq_replicate (channels chunks reduced ksize : Nat) :
    make_chunk channels chunks reduced ksize =
      List.replicate chunks (block channels reduced ksize) := by
  simp [make_chunk]

lemma conv2dShape_pos (inC outC k s p b h w : Nat)
    (hk : 1 ≤ k) (hs : 1 ≤ s) (hkh : k ≤ h + 2 * p) (hkw : k ≤ w + 2 * p) :
    conv2dShape inC outC k s p (.s4 b inC h w) =
      some (.s4 b outC ((h + 2 * p - k) / s + 1) ((w + 2 * p - k) / s + 1)) := by
  simp [conv2dShape, hk, hs, hkh, hkw]

lemma layersShape_convbr (inC outC k s p b h w oh ow : Nat)
    (hk : 1 ≤ k) (hs : 1 ≤ s) (hkh : k ≤ h + 2 * p) (hkw : k ≤ w + 2 * p)
    (hoh : oh = (h + 2 * p - k) / s + 1) (how : ow = (w + 2 * p - k) / s + 1)
    (hbn : 2 ≤ b * oh * ow) :
    layersShape (convbr inC outC k s p) (.s4 b inC h w) =
      some (.s4 b outC oh ow) := by
  subst hoh how
  simp [convbr, layersShape, Layer.shapeOut,
    conv2dShape_pos inC outC k s p b h w hk hs hkh hkw, batchNorm2dShape, hbn]

lemma block_shapeOut_odd (c r k b h w : Nat) (hk : k % 2 = 1)
    (hh : 1 ≤ h) (hw : 1 ≤ w) (hbn : 2 ≤ b * h * w) :
    (block c r k).shapeOut (.s4 b c h w) = some (.s4 b c h w) := by
  have e1 : layersShape (convbr c r 1 1 0) (.s4 b c h w) = some (.s4 b r h w) :=
    layersShape_convbr c r 1 1 0 b h w h w (by omega) (by omega) (by omega)
      (by omega) (by omega) (by omega) hbn
  have e2 : layersShape (convbr r r k 1 (k / 2)) (.s4 b r h w) = some (.s4 b r h w) :=
    layersShape_convbr r r k 1 (k / 2) b h w h w (by omega) (by omega) (by omega)
      (by omega) (by omega) (by omega) hbn
  have e3 : layersShape (convbr r c 1 1 0) (.s4 b r h w) = some (.s4 b c h w) :=
    layersShape_convbr r c 1 1 0 b h w h w (by omega) (by omega) (by omega)
      (by omega) (by omega) (by omega) hbn
  simp [block, Block.shapeOut, e1, e2, e3, addInto]

lemma chunkShape_replicate_odd (n c r k b h w : Nat) (hk : k % 2 = 1)
    (hh : 1 ≤ h) (hw : 1 ≤ w) (hbn : 2 ≤ b * h * w) :
    chunkShape (List.replicate n (block c r k)) (.s4 b c h w) =
      some (.s4 b c h w) := by
  induction n with
  | zero => simp [chunkShape]
  | succ n ih =>
      simp [List.replicate_succ, chunkShape,
        block_shapeOut_odd c r k b h w hk hh hw hbn, ih]

lemma layerShapeOut_batch (l : Layer) (s t : TShape)
    (h : l.shapeOut s = some t) : t.batch = s.batch := by
  cases l <;> cases s <;>
    simp only [Layer.shapeOut, conv2dShape, batchNorm2dShape, batchNorm1dShape,
      linearShape, Option.ite_none_right_eq_some, Option.some.injEq,
      reduceCtorEq] at h <;>
    (obtain ⟨-, rfl⟩ := h; rfl)

lemma layersShape_batch (ls : List Layer) (s t : TShape)
    (h : layersShape ls s = some t) : t.batch = s.batch := by
  induction ls generalizing s with
  | nil =>
      simp only [layersShape, Option.some.injEq] at h
      rw [h]
  | cons l ls ih =>
      simp only [layersShape] at h
      obtain ⟨u, hu, h⟩ := Option.bind_eq_some.mp h
      exact (ih u h).trans (layerShapeOut_batch l s u hu)

lemma addInto_eq (o x t : TShape) (h : addInto o x = some t) : t = o := by
  cases o <;> cases x <;>
    simp only [addInto, Option.ite_none_right_eq_some, Option.some.injEq,
      reduceCtorEq] at h <;>
    obtain ⟨-, rfl⟩ := h <;> rfl

lemma blockShapeOut_batch (bl : Block) (s t : TShape)
    (h : bl.shapeOut s = some t) : t.batch = s.batch := by
  unfold Block.shapeOut at h
  obtain ⟨t1, h1, h⟩ := Option.bind_eq_some.mp h
  obtain ⟨t2, h2, h⟩ := Option.bind_eq_some.mp h
  obtain ⟨t3, h3, h⟩ := Option.bind_eq_some.mp h
  have ht : t = t3 := addInto_eq t3 s t h
  rw [ht]
  calc t3.batch = t2.batch := layersShape_batch _ _ _ h3
    _ = t1.batch := layersShape_batch _ _ _ h2
    _ = s.batch := layersShape_batch _ _ _ h1

lemma chunkShape_batch (bs : List Block) (s t : TShape)
    (h : chunkShape bs s = some t) : t.batch = s.batch := by
  induction bs generalizing s with
  | nil =>
      simp only [chunkShape, Option.some.injEq] at h
      rw [h]
  | cons bl bs ih =>
      simp only [chunkShape] at h
      obtain ⟨u, hu, h⟩ := Option.bind_eq_some.mp h
      exact (ih u h).trans (blockShapeOut_batch bl s u hu)

lemma reshapeShape_batch (s t : TShape) (h : reshapeShape s = some t) :
    t.batch = s.batch := by
  cases s <;> simp only [reshapeShape, Option.some.injEq] at h <;> subst h <;> rfl

lemma fcbrd_shape (a o : Nat) (d : ℚ) (s t : TShape)
    (h : layersShape (fcbrd a o d) s = some t) :
    t = .s2 s.batch o ∧ 2 ≤ s.batch := by
  simp only [fcbrd, layersShape, Layer.shapeOut, Option.some_bind] at h
  cases s with
  | s4 b c hh ww =>
      exfalso
      simp only [linearShape] at h
      split at h
      · simp [batchNorm1dShape] at h
      · simp at h
  | s2 b n =>
      simp only [linearShape] at h
      split at h
      · simp only [batchNorm1dShape, Option.some_bind] at h
        split at h
        next hc =>
          simp only [Option.some_bind, layersShape, Option.some.injEq] at h
          exact ⟨h.symm, hc.2⟩
        · simp at h
      · simp at h

lemma getD_replicate {α : Type} (n j : Nat) (a : α) :
    (List.replicate n a).getD j a = a := by
  induction n generalizing j with
  | zero => simp
  | succ n ih => cases j <;> simp [List.replicate_succ, ih]

/-! ### Claims -/

/-- C1: for every interpretation of the primitive layers and every input
`x`, `FracNet.forward` computes its output by applying, in order, `pool0`
through `pool6`, each immediately followed by `chunk0` through `chunk6`,
then the flatten to `(batch, -1)`, then `fc0`, then `fcout`; the pipeline
is one fixed composition, identical for every input, with no
data-dependent branching. -/
theorem forward_fixed_sequence {V : Type} (S : PrimSem V) (m : FracNet) (x : V) :
    (FracNet.forward S m x).2 =
      m.fcout.run S (runLayers S m.fc0 (S.reshape
        (runChunk S m.chunk6 (runLayers S m.pool6
          (runChunk S m.chunk5 (runLayers S m.pool5
            (runChunk S m.chunk4 (runLayers S m.pool4
              (runChunk S m.chunk3 (runLayers S m.pool3
                (runChunk S m.chunk2 (runLayers S m.pool2
                  (runChunk S m.chunk1 (runLayers S m.pool1
                    (runChunk S m.chunk0 (runLayers S m.pool0 x)))))))))))))))) :=
  rfl

/-- C2: with `psize = [10,10,8,8,4,4,2]` and a single-channel 640x640
input, the stride-2 zero-padding convolutions yield spatial sizes 316,
154, 74, 34, 16, 7, 3 after pools 0..6, so the flattened vector entering
`fc0` has length `512 * 3 * 3 = 4608`, which is `fc0`'s declared input
size. -/
theorem pool_spatial_sizes (n : Nat) (d : ℚ) (ch ks : Fin 7 → Nat) :
    layersShape (FracNet.init n d ch ks ![10, 10, 8, 8, 4, 4, 2]).pool0
        (.s4 2 1 640 640) = some (.s4 2 8 316 316) ∧
    layersShape (FracNet.init n d ch ks ![10, 10, 8, 8, 4, 4, 2]).pool1
        (.s4 2 8 316 316) = some (.s4 2 16 154 154) ∧
    layersShape (FracNet.init n d ch ks ![10, 10, 8, 8, 4, 4, 2]).pool2
        (.s4 2 16 154 154) = some (.s4 2 32 74 74) ∧
    layersShape (FracNet.init n d ch ks ![10, 10, 8, 8, 4, 4, 2]).pool3
        (.s4 2 32 74 74) = some (.s4 2 64 34 34) ∧
    layersShape (FracNet.init n d ch ks ![10, 10, 8, 8, 4, 4, 2]).pool4
        (.s4 2 64 34 34) = some (.s4 2 128 16 16) ∧
    layersShape (FracNet.init n d ch ks ![10, 10, 8, 8, 4, 4, 2]).pool5
        (.s4 2 128 16 16) = some (.s4 2 256 7 7) ∧
    layersShape (FracNet.init n d ch ks ![10, 10, 8, 8, 4, 4, 2]).pool6
        (.s4 2 256 7 7) = some (.s4 2 512 3 3) ∧
    reshapeShape (.s4 2 512 3 3) = some (.s2 2 (512 * 3 * 3)) ∧
    512 * 3 * 3 = 4608 ∧
    (FracNet.init n d ch ks ![10, 10, 8, 8, 4, 4, 2]).fc0 =
      fcbrd (512 * 3 * 3) 1000 d :=
  ⟨rfl, rfl, rfl, rfl, rfl, rfl, rfl, rfl, rfl, rfl⟩

/-- C3: a `block` consists of a 1x1 `convbr` from `channels` down to
`reduced`, a `ksize` x `ksize` `convbr` at width `reduced` with padding
`int(ksize/2)`, and a 1x1 `convbr` back to `channels`; for every
interpretation and input, `block.forward` is `conv3 (conv2 (conv1 x))`
with the block input added to the result. -/
theorem block_forward_residual (channels reduced ksize : Nat) {V : Type}
    (S : PrimSem V) (x : V) :
    (block channels reduced ksize).conv1 = convbr channels reduced 1 1 0 ∧
    (block channels reduced ksize).conv2 =
      convbr reduced reduced ksize 1 (ksize / 2) ∧
    (block channels reduced ksize).conv3 = convbr reduced channels 1 1 0 ∧
    (block channels reduced ksize).run S x =
      S.add (runLayers S (block channels reduced ksize).conv3
        (runLayers S (block channels reduced ksize).conv2
          (runLayers S (block channels reduced ksize).conv1 x))) x :=
  ⟨rfl, rfl, rfl, rfl⟩

/-- C5: `convbr` is exactly `Conv2d`, `BatchNorm2d`, `LeakyReLU` in that
order with defaults `kernel_size = 3`, `stride = 1`, `padding = 0`, and
`fcbrd` is exactly `Dropout`, `Linear`, `BatchNorm1d`, `LeakyReLU` in
that order with default dropout probability `0`. -/
theorem convbr_fcbrd_structure :
    (∀ a b k s p : Nat, convbr a b k s p =
      [Layer.conv2d a b k s p, Layer.batchNorm2d b, Layer.leakyReLU]) ∧
    (∀ a b : Nat, convbr a b =
      [Layer.conv2d a b 3 1 0, Layer.batchNorm2d b, Layer.leakyReLU]) ∧
    (∀ (a b : Nat) (d : ℚ), fcbrd a b d =
      [Layer.dropout d, Layer.linear a b, Layer.batchNorm1d b,
       Layer.leakyReLU]) ∧
    (∀ a b : Nat, fcbrd a b =
      [Layer.dropout 0, Layer.linear a b, Layer.batchNorm1d b,
       Layer.leakyReLU]) :=
  ⟨fun _ _ _ _ _ => rfl, fun _ _ => rfl, fun _ _ _ => rfl, fun _ _ => rfl⟩

/-- C8: `FracNet.forward` never touches the training-state attributes:
the model component returned by the state-passing embedding of `forward`
has the same `Accuracies`, `losses`, `total_epochs` and `num_classes` as
the input model, for every interpretation and input. -/
theorem forward_preserves_training_state {V : Type} (S : PrimSem V)
    (m : FracNet) (x : V) :
    (FracNet.forward S m x).1.Accuracies = m.Accuracies ∧
    (FracNet.forward S m x).1.losses = m.losses ∧
    (FracNet.forward S m x).1.total_epochs = m.total_epochs ∧
    (FracNet.forward S m x).1.num_classes = m.num_classes :=
  ⟨rfl, rfl, rfl, rfl⟩

/-- C10: `make_chunk(channels, n, reduced, ksize)` is a sequential of
exactly `n` modules, each equal to `block channels reduced ksize`; with
`n = 0` it is the empty sequential, which acts as the identity both in
the value semantics and in the shape semantics. -/
theorem make_chunk_replicate (channels n reduced ksize : Nat) {V : Type}
    (S : PrimSem V) (x : V) (t : TShape) :
    make_chunk channels n reduced ksize =
      List.replicate n (block channels reduced ksize) ∧
    (make_chunk channels n reduced ksize).length = n ∧
    (∀ j : Nat, (make_chunk channels n reduced ksize).getD j
      (block channels reduced ksize) = block channels reduced ksize) ∧
    make_chunk channels 0 reduced ksize = [] ∧
    runChunk S (make_chunk channels 0 reduced ksize) x = x ∧
    chunkShape (make_chunk channels 0 reduced ksize) t = some t := by
  refine ⟨make_chunk_eq_replicate channels n reduced ksize, ?_, ?_, rfl, rfl, rfl⟩
  · simp [make_chunk]
  · intro j
    rw [make_chunk_eq_replicate]
    exact getD_replicate n j (block channels reduced ksize)

/-- C9 counterexample: the claim says the residual addition fails for
every even `ksize`, but on a 1x1 spatial input with `ksize = 2` the
conv chain yields 2x2 and the in-place addition `out += x` broadcasts
the 1x1 input, so `block.forward` succeeds (returning a 2x2 shape)
instead of failing; moreover for the even value `ksize = 0` the middle
convolution itself is invalid rather than enlarging its output by 1. -/
theorem block_even_ksize_counterexample :
    (block 8 8 2).shapeOut (.s4 2 8 1 1) = some (.s4 2 8 2 2) ∧
    layersShape (convbr 8 8 0 1 0) (.s4 2 8 3 3) = none := by
  decide

/-- C9 amended: for every odd `ksize`, each convolution inside a block
preserves the spatial dimensions, so the residual addition is
shape-valid and the block preserves its input shape; for every even
`ksize` of at least 2, the padding `int(ksize/2)` enlarges each spatial
dimension of conv2's output by 1, and the residual addition fails with a
shape mismatch whenever some spatial dimension of the input is at least
2 (on a 1x1 spatial input it instead succeeds by broadcasting). -/
theorem block_shape_parity (c r k b h w : Nat) (hh : 1 ≤ h) (hw : 1 ≤ w)
    (hbn : 2 ≤ b * h * w) :
    (k % 2 = 1 →
      (block c r k).shapeOut (.s4 b c h w) = some (.s4 b c h w)) ∧
    (k % 2 = 0 → 2 ≤ k →
      layersShape (convbr r r k 1 (k / 2)) (.s4 b r h w) =
        some (.s4 b r (h + 1) (w + 1)) ∧
      (2 ≤ h ∨ 2 ≤ w → (block c r k).shapeOut (.s4 b c h w) = none)) := by
  constructor
  · intro hk
    exact block_shapeOut_odd c r k b h w hk hh hw hbn
  · intro hk hk2
    have hbn2 : 2 ≤ b * (h + 1) * (w + 1) :=
      le_trans hbn
        (Nat.mul_le_mul (Nat.mul_le_mul (Nat.le_refl b) (Nat.le_succ h))
          (Nat.le_succ w))
    have e2 : layersShape (convbr r r k 1 (k / 2)) (.s4 b r h w) =
        some (.s4 b r (h + 1) (w + 1)) :=
      layersShape_convbr r r k 1 (k / 2) b h w (h + 1) (w + 1) (by omega)
        (by omega) (by omega) (by omega) (by omega) (by omega) hbn2
    refine ⟨e2, ?_⟩
    intro hor
    have e1 : layersShape (convbr c r 1 1 0) (.s4 b c h w) =
        some (.s4 b r h w) :=
      layersShape_convbr c r 1 1 0 b h w h w (by omega) (by omega) (by omega)
        (by omega) (by omega) (by omega) hbn
    have e3 : layersShape (convbr r c 1 1 0) (.s4 b r (h + 1) (w + 1)) =
        some (.s4 b c (h + 1) (w + 1)) :=
      layersShape_convbr r c 1 1 0 b (h + 1) (w + 1) (h + 1) (w + 1) (by omega)
        (by omega) (by omega) (by omega) (by omega) (by omega) hbn2
    simp only [block, Block.shapeOut, e1, e2, e3, Option.some_bind]
    simp only [addInto]
    rw [if_neg]
    rintro ⟨-, -, h3, h4⟩
    omega

/-- C9 witness: the amended theorem instantiated at a 3x3 spatial input
with odd kernel 3 and even kernel 2. -/
theorem block_shape_parity_witness :
    ((3 : Nat) % 2 = 1 →
      (block 8 8 3).shapeOut (.s4 2 8 3 3) = some (.s4 2 8 3 3)) ∧
    ((3 : Nat) % 2 = 0 → 2 ≤ 3 →
      layersShape (convbr 8 8 3 1 (3 / 2)) (.s4 2 8 3 3) =
        some (.s4 2 8 (3 + 1) (3 + 1)) ∧
      (2 ≤ 3 ∨ 2 ≤ 3 → (block 8 8 3).shapeOut (.s4 2 8 3 3) = none)) :=
  block_shape_parity 8 8 3 2 3 3 (by decide) (by decide) (by decide)

/-- C6: under the preconditions — batch size at least 2 (for batch
normalization), single-channel 640x640 input, every `ksize` entry odd,
`psize = [10,10,8,8,4,4,2]` — `FracNet.forward` reaches no failure: its
shape semantics succeeds, for every `num_classes`, dropout probability
and chunk sizes.  In the embedding, every failure of the forward pass is
a `none` of the shape semantics, i.e. a tensor-shape check. -/
theorem forward_shape_succeeds (n : Nat) (d : ℚ) (ch ks ps : Fin 7 → Nat)
    (b : Nat) (hb : 2 ≤ b) (hks : ∀ i : Fin 7, ks i % 2 = 1)
    (hps : ps = ![10, 10, 8, 8, 4, 4, 2]) :
    (FracNet.init n d ch ks ps).forwardShape (.s4 b 1 640 640) =
      some (.s2 b n) := by
  subst hps
  have p0 : layersShape (FracNet.init n d ch ks ![10, 10, 8, 8, 4, 4, 2]).pool0
      (.s4 b 1 640 640) = some (.s4 b 8 316 316) := by
    show layersShape (convbr 1 8 10 2 0) (.s4 b 1 640 640) = _
    exact layersShape_convbr 1 8 10 2 0 b 640 640 316 316 (by omega) (by omega)
      (by omega) (by omega) (by omega) (by omega) (by omega)
  have c0 : chunkShape (FracNet.init n d ch ks ![10, 10, 8, 8, 4, 4, 2]).chunk0
      (.s4 b 8 316 316) = some (.s4 b 8 316 316) := by
    show chunkShape (make_chunk 8 (ch 0) 8 (ks 0)) (.s4 b 8 316 316) = _
    rw [make_chunk_eq_replicate]
    exact chunkShape_replicate_odd (ch 0) 8 8 (ks 0) b 316 316 (hks 0)
      (by omega) (by omega) (by omega)
  have p1 : layersShape (FracNet.init n d ch ks ![10, 10, 8, 8, 4, 4, 2]).pool1
      (.s4 b 8 316 316) = some (.s4 b 16 154 154) := by
    show layersShape (convbr 8 16 10 2 0) (.s4 b 8 316 316) = _
    exact layersShape_convbr 8 16 10 2 0 b 316 316 154 154 (by omega) (by omega)
      (by omega) (by omega) (by omega) (by omega) (by omega)
  have c1 : chunkShape (FracNet.init n d ch ks ![10, 10, 8, 8, 4, 4, 2]).chunk1
      (.s4 b 16 154 154) = some (.s4 b 16 154 154) := by
    show chunkShape (make_chunk 16 (ch 1) 16 (ks 1)) (.s4 b 16 154 154) = _
    rw [make_chunk_eq_replicate]
    exact chunkShape_replicate_odd (ch 1) 16 16 (ks 1) b 154 154 (hks 1)
      (by omega) (by omega) (by omega)
  have p2 : layersShape (FracNet.init n d ch ks ![10, 10, 8, 8, 4, 4, 2]).pool2
      (.s4 b 16 154 154) = some (.s4 b 32 74 74) := by
    show layersShape (convbr 16 32 8 2 0) (.s4 b 16 154 154) = _
    exact layersShape_convbr 16 32 8 2 0 b 154 154 74 74 (by omega) (by omega)
      (by omega) (by omega) (by omega) (by omega) (by omega)
  have c2 : chunkShape (FracNet.init n d ch ks ![10, 10, 8, 8, 4, 4, 2]).chunk2
      (.s4 b 32 74 74) = some (.s4 b 32 74 74) := by
    show chunkShape (make_chunk 32 (ch 2) 16 (ks 2)) (.s4 b 32 74 74) = _
    rw [make_chunk_eq_replicate]
    exact chunkShape_replicate_odd (ch 2) 32 16 (ks 2) b 74 74 (hks 2)
      (by omega) (by omega) (by omega)
  have p3 : layersShape (FracNet.init n d ch ks ![10, 10, 8, 8, 4, 4, 2]).pool3
      (.s4 b 32 74 74) = some (.s4 b 64 34 34) := by
    show layersShape (convbr 32 64 8 2 0) (.s4 b 32 74 74) = _
    exact layersShape_convbr 32 64 8 2 0 b 74 74 34 34 (by omega) (by omega)
      (by omega) (by omega) (by omega) (by omega) (by omega)
  have c3 : chunkShape (FracNet.init n d ch ks ![10, 10, 8, 8, 4, 4, 2]).chunk3
      (.s4 b 64 34 34) = some (.s4 b 64 34 34) := by
    show chunkShape (make_chunk 64 (ch 3) 32 (ks 3)) (.s4 b 64 34 34) = _
    rw [make_chunk_eq_replicate]
    exact chunkShape_replicate_odd (ch 3) 64 32 (ks 3) b 34 34 (hks 3)
      (by omega) (by omega) (by omega)
  have p4 : layersShape (FracNet.init n d ch ks ![10, 10, 8, 8, 4, 4, 2]).pool4
      (.s4 b 64 34 34) = some (.s4 b 128 16 16) := by
    show layersShape (convbr 64 128 4 2 0) (.s4 b 64 34 34) = _
    exact layersShape_convbr 64 128 4 2 0 b 34 34 16 16 (by omega) (by omega)
      (by omega) (by omega) (by omega) (by omega) (by omega)
  have c4 : chunkShape (FracNet.init n d ch ks ![10, 10, 8, 8, 4, 4, 2]).chunk4
      (.s4 b 128 16 16) = some (.s4 b 128 16 16) := by
    show chunkShape (make_chunk 128 (ch 4) 32 (ks 4)) (.s4 b 128 16 16) = _
    rw [make_chunk_eq_replicate]
    exact chunkShape_replicate_odd (ch 4) 128 32 (ks 4) b 16 16 (hks 4)
      (by omega) (by omega) (by omega)
  have p5 : layersShape (FracNet.init n d ch ks ![10, 10, 8, 8, 4, 4, 2]).pool5
      (.s4 b 128 16 16) = some (.s4 b 256 7 7) := by
    show layersShape (convbr 128 256 4 2 0) (.s4 b 128 16 16) = _
    exact layersShape_convbr 128 256 4 2 0 b 16 16 7 7 (by omega) (by omega)
      (by omega) (by omega) (by omega) (by omega) (by omega)
  have c5 : chunkShape (FracNet.init n d ch ks ![10, 10, 8, 8, 4, 4, 2]).chunk5
      (.s4 b 256 7 7) = some (.s4 b 256 7 7) := by
    show chunkShape (make_chunk 256 (ch 5) 64 (ks 5)) (.s4 b 256 7 7) = _
    rw [make_chunk_eq_replicate]
    exact chunkShape_replicate_odd (ch 5) 256 64 (ks 5) b 7 7 (hks 5)
      (by omega) (by omega) (by omega)
  have p6 : layersShape (FracNet.init n d ch ks ![10, 10, 8, 8, 4, 4, 2]).pool6
      (.s4 b 256 7 7) = some (.s4 b 512 3 3) := by
    show layersShape (convbr 256 512 2 2 0) (.s4 b 256 7 7) = _
    exact layersShape_convbr 256 512 2 2 0 b 7 7 3 3 (by omega) (by omega)
      (by omega) (by omega) (by omega) (by omega) (by omega)
  have c6 : chunkShape (FracNet.init n d ch ks ![10, 10, 8, 8, 4, 4, 2]).chunk6
      (.s4 b 512 3 3) = some (.s4 b 512 3 3) := by
    show chunkShape (make_chunk 512 (ch 6) 128 (ks 6)) (.s4 b 512 3 3) = _
    rw [make_chunk_eq_replicate]
    exact chunkShape_replicate_odd (ch 6) 512 128 (ks 6) b 3 3 (hks 6)
      (by omega) (by omega) (by omega)
  have r0 : reshapeShape (.s4 b 512 3 3) = some (.s2 b 4608) := by
    norm_num [reshapeShape]
  have f0 : layersShape (FracNet.init n d ch ks ![10, 10, 8, 8, 4, 4, 2]).fc0
      (.s2 b 4608) = some (.s2 b 1000) := by
    show layersShape (fcbrd 4608 1000 d) (.s2 b 4608) = _
    simp [fcbrd, layersShape, Layer.shapeOut, linearShape, batchNorm1dShape, hb]
  have fo : Layer.shapeOut (FracNet.init n d ch ks ![10, 10, 8, 8, 4, 4, 2]).fcout
      (.s2 b 1000) = some (.s2 b n) := by
    show Layer.shapeOut (.linear 1000 n) (.s2 b 1000) = _
    simp [Layer.shapeOut, linearShape]
  rw [FracNet.forwardShape, p0, Option.some_bind, c0, Option.some_bind, p1,
    Option.some_bind, c1, Option.some_bind, p2, Option.some_bind, c2,
    Option.some_bind, p3, Option.some_bind, c3, Option.some_bind, p4,
    Option.some_bind, c4, Option.some_bind, p5, Option.some_bind, c5,
    Option.some_bind, p6, Option.some_bind, c6, Option.some_bind, r0,
    Option.some_bind, f0, Option.some_bind, fo]

/-- C6 witness: a concrete network (5 outputs, one block per chunk,
kernel size 3 everywhere) on a batch of two 640x640 single-channel
images. -/
theorem forward_shape_succeeds_witness :
    (FracNet.init 5 0 (fun _ => 1) (fun _ => 3)
        ![10, 10, 8, 8, 4, 4, 2]).forwardShape (.s4 2 1 640 640) =
      some (.s2 2 5) :=
  forward_shape_succeeds 5 0 (fun _ => 1) (fun _ => 3) ![10, 10, 8, 8, 4, 4, 2]
    2 (by decide) (fun _ => by norm_num) rfl

/-- C4: `pool0` of every FracNet consumes exactly one input feature map,
and whenever the forward pass succeeds on an input, the output is a 2-D
tensor with exactly `num_classes` values per batch element, produced by
the final `Linear 1000 -> num_classes` layer `fcout`. -/
theorem output_vector_length (n : Nat) (d : ℚ) (ch ks ps : Fin 7 → Nat)
    (x y : TShape)
    (hx : (FracNet.init n d ch ks ps).forwardShape x = some y) :
    (FracNet.init n d ch ks ps).pool0 = convbr 1 8 (ps 0) 2 0 ∧
    (FracNet.init n d ch ks ps).fcout = Layer.linear 1000 n ∧
    y = .s2 x.batch n := by
  refine ⟨rfl, rfl, ?_⟩
  unfold FracNet.forwardShape at hx
  obtain ⟨t16, hx, hfo⟩ := Option.bind_eq_some.mp hx
  obtain ⟨t15, hx, hfc⟩ := Option.bind_eq_some.mp hx
  obtain ⟨t14, hx, hre⟩ := Option.bind_eq_some.mp hx
  obtain ⟨t13, hx, hc6⟩ := Option.bind_eq_some.mp hx
  obtain ⟨t12, hx, hp6⟩ := Option.bind_eq_some.mp hx
  obtain ⟨t11, hx, hc5⟩ := Option.bind_eq_some.mp hx
  obtain ⟨t10, hx, hp5⟩ := Option.bind_eq_some.mp hx
  obtain ⟨t9, hx, hc4⟩ := Option.bind_eq_some.mp hx
  obtain ⟨t8, hx, hp4⟩ := Option.bind_eq_some.mp hx
  obtain ⟨t7, hx, hc3⟩ := Option.bind_eq_some.mp hx
  obtain ⟨t6, hx, hp3⟩ := Option.bind_eq_some.mp hx
  obtain ⟨t5, hx, hc2⟩ := Option.bind_eq_some.mp hx
  obtain ⟨t4, hx, hp2⟩ := Option.bind_eq_some.mp hx
  obtain ⟨t3, hx, hc1⟩ := Option.bind_eq_some.mp hx
  obtain ⟨t2, hx, hp1⟩ := Option.bind_eq_some.mp hx
  obtain ⟨t1, hp0, hc0⟩ := Option.bind_eq_some.mp hx
  have e1 : t1.batch = x.batch := layersShape_batch _ _ _ hp0
  have e2 : t2.batch = t1.batch := chunkShape_batch _ _ _ hc0
  have e3 : t3.batch = t2.batch := layersShape_batch _ _ _ hp1
  have e4 : t4.batch = t3.batch := chunkShape_batch _ _ _ hc1
  have e5 : t5.batch = t4.batch := layersShape_batch _ _ _ hp2
  have e6 : t6.batch = t5.batch := chunkShape_batch _ _ _ hc2
  have e7 : t7.batch = t6.batch := layersShape_batch _ _ _ hp3
  have e8 : t8.batch = t7.batch := chunkShape_batch _ _ _ hc3
  have e9 : t9.batch = t8.batch := layersShape_batch _ _ _ hp4
  have e10 : t10.batch = t9.batch := chunkShape_batch _ _ _ hc4
  have e11 : t11.batch = t10.batch := layersShape_batch _ _ _ hp5
  have e12 : t12.batch = t11.batch := chunkShape_batch _ _ _ hc5
  have e13 : t13.batch = t12.batch := layersShape_batch _ _ _ hp6
  have e14 : t14.batch = t13.batch := chunkShape_batch _ _ _ hc6
  have e15 : t15.batch = t14.batch := reshapeShape_batch _ _ hre
  obtain ⟨ht16, -⟩ := fcbrd_shape 4608 1000 d t15 t16 hfc
  subst ht16
  have hfo2 : Layer.shapeOut (Layer.linear 1000 n) (.s2 t15.batch 1000) =
      some y := hfo
  have hyy : Layer.shapeOut (Layer.linear 1000 n) (.s2 t15.batch 1000) =
      some (.s2 t15.batch n) := by
    simp [Layer.shapeOut, linearShape]
  have hy : y = .s2 t15.batch n :=
    (Option.some.inj (hyy.symm.trans hfo2)).symm
  have hbx : t15.batch = x.batch := by omega
  rw [hy, hbx]

/-- C4 witness: the theorem applied to a concrete network with 5 outputs
on a successful batch-2 640x640 input. -/
theorem output_vector_length_witness :
    (FracNet.init 5 0 (fun _ => 1) (fun _ => 3)
        ![10, 10, 8, 8, 4, 4, 2]).pool0 =
      convbr 1 8 ((![10, 10, 8, 8, 4, 4, 2] : Fin 7 → Nat) 0) 2 0 ∧
    (FracNet.init 5 0 (fun _ => 1) (fun _ => 3)
        ![10, 10, 8, 8, 4, 4, 2]).fcout = Layer.linear 1000 5 ∧
    (TShape.s2 2 5) = .s2 (TShape.s4 2 1 640 640).batch 5 :=
  output_vector_length 5 0 (fun _ => 1) (fun _ => 3) ![10, 10, 8, 8, 4, 4, 2]
    (.s4 2 1 640 640) (.s2 2 5) (by decide)

/-- C7: construction is deterministic — two calls of `FracNet.init` with
identical arguments produce equal networks — and the architecture is
fixed: channel widths `[8,16,32,64,128,256,512]` and reduction widths
`[8,16,16,32,32,64,128]` independent of the arguments, pooling
convolutions with the given kernel sizes at stride 2 and padding 0,
chunks of exactly the requested numbers of identical blocks, and the two
fully-connected layers `fcbrd 4608 1000` and `Linear 1000 num_classes`. -/
theorem init_deterministic_structure (n n2 : Nat) (d d2 : ℚ)
    (ch ch2 ks ks2 ps ps2 : Fin 7 → Nat) (hn : n = n2) (hd : d = d2)
    (hch : ch = ch2) (hks : ks = ks2) (hps : ps = ps2) :
    FracNet.init n d ch ks ps = FracNet.init n2 d2 ch2 ks2 ps2 ∧
    (FracNet.init n d ch ks ps).pool0 = convbr 1 8 (ps 0) 2 0 ∧
    (FracNet.init n d ch ks ps).pool1 = convbr 8 16 (ps 1) 2 0 ∧
    (FracNet.init n d ch ks ps).pool2 = convbr 16 32 (ps 2) 2 0 ∧
    (FracNet.init n d ch ks ps).pool3 = convbr 32 64 (ps 3) 2 0 ∧
    (FracNet.init n d ch ks ps).pool4 = convbr 64 128 (ps 4) 2 0 ∧
    (FracNet.init n d ch ks ps).pool5 = convbr 128 256 (ps 5) 2 0 ∧
    (FracNet.init n d ch ks ps).pool6 = convbr 256 512 (ps 6) 2 0 ∧
    (FracNet.init n d ch ks ps).chunk0 =
      List.replicate (ch 0) (block 8 8 (ks 0)) ∧
    (FracNet.init n d ch ks ps).chunk1 =
      List.replicate (ch 1) (block 16 16 (ks 1)) ∧
    (FracNet.init n d ch ks ps).chunk2 =
      List.replicate (ch 2) (block 32 16 (ks 2)) ∧
    (FracNet.init n d ch ks ps).chunk3 =
      List.replicate (ch 3) (block 64 32 (ks 3)) ∧
    (FracNet.init n d ch ks ps).chunk4 =
      List.replicate (ch 4) (block 128 32 (ks 4)) ∧
    (FracNet.init n d ch ks ps).chunk5 =
      List.replicate (ch 5) (block 256 64 (ks 5)) ∧
    (FracNet.init n d ch ks ps).chunk6 =
      List.replicate (ch 6) (block 512 128 (ks 6)) ∧
    (FracNet.init n d ch ks ps).fc0 = fcbrd 4608 1000 d ∧
    (FracNet.init n d ch ks ps).fcout = Layer.linear 1000 n := by
  subst hn hd hch hks hps
  refine ⟨rfl, rfl, rfl, rfl, rfl, rfl, rfl, rfl, ?_, ?_, ?_, ?_, ?_, ?_, ?_,
    rfl, rfl⟩
  · exact make_chunk_eq_replicate 8 (ch 0) 8 (ks 0)
  · exact make_chunk_eq_replicate 16 (ch 1) 16 (ks 1)
  · exact make_chunk_eq_replicate 32 (ch 2) 16 (ks 2)
  · exact make_chunk_eq_replicate 64 (ch 3) 32 (ks 3)
  · exact make_chunk_eq_replicate 128 (ch 4) 32 (ks 4)
  · exact make_chunk_eq_replicate 256 (ch 5) 64 (ks 5)
  · exact make_chunk_eq_replicate 512 (ch 6) 128 (ks 6)

/-- C7 witness: the theorem applied to two identical concrete argument
tuples. -/
theorem init_deterministic_structure_witness :
    FracNet.init 5 0 (fun _ => 1) (fun _ => 3) ![10, 10, 8, 8, 4, 4, 2] =
      FracNet.init 5 0 (fun _ => 1) (fun _ => 3) ![10, 10, 8, 8, 4, 4, 2] ∧
    (FracNet.init 5 0 (fun _ => 1) (fun _ => 3)
        ![10, 10, 8, 8, 4, 4, 2]).pool0 =
      convbr 1 8 ((![10, 10, 8, 8, 4, 4, 2] : Fin 7 → Nat) 0) 2 0 ∧
    (FracNet.init 5 0 (fun _ => 1) (fun _ => 3)
        ![10, 10, 8, 8, 4, 4, 2]).pool1 =
      convbr 8 16 ((![10, 10, 8, 8, 4, 4, 2] : Fin 7 → Nat) 1) 2 0 ∧
    (FracNet.init 5 0 (fun _ => 1) (fun _ => 3)
        ![10, 10, 8, 8, 4, 4, 2]).pool2 =
      convbr 16 32 ((![10, 10, 8, 8, 4, 4, 2] : Fin 7 → Nat) 2) 2 0 ∧
    (FracNet.init 5 0 (fun _ => 1) (fun _ => 3)
        ![10, 10, 8, 8, 4, 4, 2]).pool3 =
      convbr 32 64 ((![10, 10, 8, 8, 4, 4, 2] : Fin 7 → Nat) 3) 2 0 ∧
    (FracNet.init 5 0 (fun _ => 1) (fun _ => 3)
        ![10, 10, 8, 8, 4, 4, 2]).pool4 =
      convbr 64 128 ((![10, 10, 8, 8, 4, 4, 2] : Fin 7 → Nat) 4) 2 0 ∧
    (FracNet.init 5 0 (fun _ => 1) (fun _ => 3)
        ![10, 10, 8, 8, 4, 4, 2]).pool5 =
      convbr 128 256 ((![10, 10, 8, 8, 4, 4, 2] : Fin 7 → Nat) 5) 2 0 ∧
    (FracNet.init 5 0 (fun _ => 1) (fun _ => 3)
        ![10, 10, 8, 8, 4, 4, 2]).pool6 =
      convbr 256 512 ((![10, 10, 8, 8, 4, 4, 2] : Fin 7 → Nat) 6) 2 0 ∧
    (FracNet.init 5 0 (fun _ => 1) (fun _ => 3)
        ![10, 10, 8, 8, 4, 4, 2]).chunk0 = List.replicate 1 (block 8 8 3) ∧
    (FracNet.init 5 0 (fun _ => 1) (fun _ => 3)
        ![10, 10, 8, 8, 4, 4, 2]).chunk1 = List.replicate 1 (block 16 16 3) ∧
    (FracNet.init 5 0 (fun _ => 1) (fun _ => 3)
        ![10, 10, 8, 8, 4, 4, 2]).chunk2 = List.replicate 1 (block 32 16 3) ∧
    (FracNet.init 5 0 (fun _ => 1) (fun _ => 3)
        ![10, 10, 8, 8, 4, 4, 2]).chunk3 = List.replicate 1 (block 64 32 3) ∧
    (FracNet.init 5 0 (fun _ => 1) (fun _ => 3)
        ![10, 10, 8, 8, 4, 4, 2]).chunk4 = List.replicate 1 (block 128 32 3) ∧
    (FracNet.init 5 0 (fun _ => 1) (fun _ => 3)
        ![10, 10, 8, 8, 4, 4, 2]).chunk5 = List.replicate 1 (block 256 64 3) ∧
    (FracNet.init 5 0 (fun _ => 1) (fun _ => 3)
        ![10, 10, 8, 8, 4, 4, 2]).chunk6 = List.replicate 1 (block 512 128 3) ∧
    (FracNet.init 5 0 (fun _ => 1) (fun _ => 3)
        ![10, 10, 8, 8, 4, 4, 2]).fc0 = fcbrd 4608 1000 0 ∧
    (FracNet.init 5 0 (fun _ => 1) (fun _ => 3)
        ![10, 10, 8, 8, 4, 4, 2]).fcout = Layer.linear 1000 5 :=
  init_deterministic_structure 5 5 0 0 (fun _ => 1) (fun _ => 1) (fun _ => 3)
    (fun _ => 3) ![10, 10, 8, 8, 4, 4, 2] ![10, 10, 8, 8, 4, 4, 2] rfl rfl rfl
    rfl rfl
